import Mathlib

/-!
Verification of the Beehiiv analytics MCP server (`beehiiv_mcp_server.py`).

The development shallowly embeds the parts of the program the properties
talk about:

* the client-side post-order normalization inside `BeehiivAPI.list_posts`
  (partition by presence of the requested date field, stable sort of the
  present part, direction-dependent concatenation);
* the query-parameter construction of `list_posts` (the `min(limit, 100)`
  clamp);
* the transport error mapping of `BeehiivAPI._make_request`;
* the tool catalog defaults and the `call_tool` dispatcher with its
  catch-all conversion of failures into `Error: `-prefixed text payloads.

Posts are JSON objects; the program only ever inspects the three date
fields `created`, `publish_date` and `displayed_date`, so a post is
embedded as an opaque identifier plus those three optional fields.  Date
values (numeric timestamps or ISO-8601 strings, compared as-is by the
program) are embedded as an arbitrary linearly ordered type `K`.
Python's stable `list.sort` is embedded as `List.mergeSort`, which is
stable in the same sense; `reverse=True` is embedded by flipping the
comparison, which is how CPython specifies it (stability is kept).
-/

namespace Beehiiv

/-- The date fields recognized by the client-side sort fallback
(line 122 of the source: `order_by in ["publish_date", "displayed_date", "created"]`). -/
def recognizedDateFields : List String := ["publish_date", "displayed_date", "created"]

/-- A post, as far as the program inspects it: an opaque identity `pid`
standing for all the fields the program never looks at, plus the three
optional date fields.  A field holding JSON `null` and an absent field
are both `none` (the source reads them with `post.get(field)`, which
returns `None` in both cases). -/
structure Post (K : Type) where
  pid : Nat
  created : Option K
  publish_date : Option K
  displayed_date : Option K
deriving DecidableEq, Repr

/-- `post.get(order_by)` for the fields the sort can be asked about;
an unrecognized field name reads as absent. -/
def Post.getDate {K : Type} (p : Post K) (f : String) : Option K :=
  if f = "created" then p.created
  else if f = "publish_date" then p.publish_date
  else if f = "displayed_date" then p.displayed_date
  else none

variable {K : Type} [LinearOrder K]

/-- Comparison of optional date values, `none` least.  The sort key in the
source is `x.get(date_field, 0)`; the posts actually sorted all have the
field present, so the `none` branches are never exercised there (the `0`
default mirrors a minimal element). -/
def optLE : Option K → Option K → Bool
  | none, _ => true
  | some _, none => false
  | some x, some y => decide (x ≤ y)

/-- The comparison `list.sort(key=lambda x: x.get(date_field, 0), reverse=reverse_order)`
sorts by: ascending key for `reverse_order = false`, descending key for
`reverse_order = true` (CPython's `reverse=True` sorts as if each
comparison were reversed, keeping stability). -/
def postLE (f : String) (rev : Bool) (a b : Post K) : Bool :=
  if rev then optLE (b.getDate f) (a.getDate f) else optLE (a.getDate f) (b.getDate f)

/-- Lines 124-149 of the source: the body of the sort fallback.
Partition the page into posts with and without the date field (two list
comprehensions, hence a stable partition), stably sort the present part,
and concatenate according to the direction.  The source guards the sort
with `if posts_with_dates:`, which is redundant (sorting an empty list is
a no-op) and is therefore not reproduced. -/
def sortPosts (posts : List (Post K)) (order_by direction : String) : List (Post K) :=
  let reverse_order := direction == "desc"
  let posts_with_dates := posts.filter (fun p => (p.getDate order_by).isSome)
  let posts_without_dates := posts.filter (fun p => (p.getDate order_by).isNone)
  let sorted_with := posts_with_dates.mergeSort (postLE order_by reverse_order)
  if reverse_order then sorted_with ++ posts_without_dates
  else posts_without_dates ++ sorted_with

/-- Lines 121-152 applied to the post list: the sort fallback runs only
when the page is non-empty and `order_by` is a recognized date field;
otherwise the upstream order is returned unchanged. -/
def normalizePosts (posts : List (Post K)) (order_by direction : String) : List (Post K) :=
  if posts ≠ [] ∧ order_by ∈ recognizedDateFields then sortPosts posts order_by direction
  else posts

/-- The upstream response envelope as `list_posts` sees it: the `data`
key (absent = `none`) and all the other keys, opaque to the program. -/
structure Response (K : Type) where
  data : Option (List (Post K))
  rest : List (String × String)
deriving DecidableEq, Repr

/-- Lines 116-154: `posts = data.get("data", [])`; when the page is
non-empty and `order_by` is recognized, `data["data"] = sorted_posts`;
otherwise the envelope is returned untouched. -/
def normalizeResponse (r : Response K) (order_by direction : String) : Response K :=
  let posts := r.data.getD []
  if posts ≠ [] ∧ order_by ∈ recognizedDateFields then
    { r with data := some (sortPosts posts order_by direction) }
  else r

/-! ## Transport client and query parameters -/

/-- The query parameters `list_posts` sends upstream (lines 102-114).
`expand = none` means the key is absent from the dict. -/
structure PostsParams where
  limit : Int
  page : Int
  status : String
  audience : String
  platform : String
  order_by : String
  direction : String
  expand : Option (List String)
deriving DecidableEq, Repr

/-- Lines 102-114: the params dict, with `"limit": min(limit, 100)` and the
`expand` key added only when `expand` is truthy (non-`None` and non-empty). -/
def buildPostsParams (limit page : Int) (status audience platform order_by direction : String)
    (expand : Option (List String)) : PostsParams :=
  { limit := min limit 100
    page := page
    status := status
    audience := audience
    platform := platform
    order_by := order_by
    direction := direction
    expand := match expand with
      | some l => if l.isEmpty then none else some l
      | none => none }

/-- The query parameters of `get_posts_aggregate_stats` (lines 177-181). -/
structure StatsParams where
  status : String
  audience : String
  platform : String
deriving DecidableEq, Repr

/-- What the HTTP layer hands back for one request: a 2xx JSON body, an
error status (for which `raise_for_status` raises `HTTPError`), or one of
the `requests` exception classes the source catches. -/
inductive HttpResult (α : Type) where
  | success (body : α)
  | httpError (status : Nat)
  | timeout
  | connectionFailure
  | requestFailure (msg : String)
deriving DecidableEq, Repr

/-- Lines 44-77, `BeehiivAPI._make_request`: map each transport failure to
the categorized error message the source raises (the generic non-2xx
branch also appends the exception's own text in the source, which this
embedding abbreviates to the status-coded part the claims talk about). -/
def make_request {α : Type} : HttpResult α → Except String α
  | .success b => .ok b
  | .timeout => .error "API request timed out. Please try again."
  | .connectionFailure =>
      .error "Unable to connect to Beehiiv API. Please check your internet connection."
  | .httpError s =>
      if s = 401 then .error "Invalid API key. Please check your BEEHIIV_API_KEY."
      else if s = 403 then .error "API access forbidden. Please check your API key permissions."
      else if s = 404 then .error "Resource not found."
      else if 500 ≤ s then .error "Beehiiv API server error. Please try again later."
      else .error ("API request failed with status " ++ toString s)
  | .requestFailure m => .error ("API request failed: " ++ m)

/-- The environment a tool call runs against: the `BEEHIIV_API_KEY`
environment variable (absent = `none`) and the remote server's behaviour
for each endpoint the client can hit.  Payloads of pass-through endpoints
are modeled coarsely with the same envelope type as post listings; their
structure is irrelevant to the dispatch-level properties. -/
structure World where
  apiKey : Option String
  pubsResp : HttpResult (Response String)
  pubDetailResp : String → HttpResult (Response String)
  postsResp : String → PostsParams → HttpResult (Response String)
  postDetailResp : String → String → Option (List String) → HttpResult (Response String)
  aggResp : String → StatsParams → HttpResult (Response String)
  segsResp : String → HttpResult (Response String)
  segDetailResp : String → String → HttpResult (Response String)

/-- Lines 207-215, `get_api_client`: fails when `BEEHIIV_API_KEY` is unset. -/
def get_api_client (w : World) : Except String Unit :=
  match w.apiKey with
  | none => .error "BEEHIIV_API_KEY environment variable is required"
  | some _ => .ok ()

namespace BeehiivAPI

/-- Lines 79-82. -/
def get_publications (w : World) : Except String (List (Post String)) :=
  (make_request w.pubsResp).map (fun d => d.data.getD [])

/-- Lines 84-87. -/
def get_publication_details (w : World) (publication_id : String) :
    Except String (List (Post String)) :=
  (make_request (w.pubDetailResp publication_id)).map (fun d => d.data.getD [])

/-- Lines 89-154, `BeehiivAPI.list_posts`: build the params, make the
request, then apply the client-side sort fallback to the returned
envelope. -/
def list_posts (w : World) (publication_id : String) (limit page : Int)
    (status audience platform order_by direction : String)
    (expand : Option (List String)) : Except String (Response String) :=
  (make_request (w.postsResp publication_id
      (buildPostsParams limit page status audience platform order_by direction expand))).map
    (fun d => normalizeResponse d order_by direction)

/-- Lines 156-167. -/
def get_post_details (w : World) (publication_id post_id : String)
    (expand : Option (List String)) : Except String (List (Post String)) :=
  (make_request (w.postDetailResp publication_id post_id
      (match expand with
        | some l => if l.isEmpty then none else some l
        | none => none))).map (fun d => d.data.getD [])

/-- Lines 169-186. -/
def get_posts_aggregate_stats (w : World) (publication_id status audience platform : String) :
    Except String (List (Post String)) :=
  (make_request (w.aggResp publication_id
      { status := status, audience := audience, platform := platform })).map
    (fun d => d.data.getD [])

/-- Lines 188-191. -/
def list_segments (w : World) (publication_id : String) :
    Except String (List (Post String)) :=
  (make_request (w.segsResp publication_id)).map (fun d => d.data.getD [])

/-- Lines 193-200. -/
def get_segment_details (w : World) (publication_id segment_id : String) :
    Except String (List (Post String)) :=
  (make_request (w.segDetailResp publication_id segment_id)).map (fun d => d.data.getD [])

end BeehiivAPI

/-! ## Tool catalog and dispatcher -/

/-- A JSON argument value as the tools receive it: the schemas declare
integer, string and string-array parameters. -/
inductive JVal where
  | i (n : Int)
  | s (str : String)
  | arr (l : List String)
deriving DecidableEq, Repr

/-- The argument mapping handed to `call_tool` (a JSON object; first
binding wins on lookup, as in a dict). -/
def Args : Type := List (String × JVal)

/-- `arguments.get(key)`. -/
def lookupA : Args → String → Option JVal
  | [], _ => none
  | (k, v) :: rest, key => if key = k then some v else lookupA rest key

/-- The textual rendering of an argument value (used where the source
interpolates the value into a URL path). -/
def JVal.text : JVal → String
  | .i n => toString n
  | .s str => str
  | .arr l => String.intercalate "," l

/-- `arguments[key]` for a required argument: a missing key raises
`KeyError` (whose message the embedding renders as `KeyError: key`). -/
def requireStr (args : Args) (k : String) : Except String String :=
  match lookupA args k with
  | some v => .ok v.text
  | none => .error ("KeyError: " ++ k)

/-- `arguments.get(key, d)` for an integer-schema argument.  A value of a
different runtime type is outside the model and reads as the default. -/
def intArg (args : Args) (k : String) (d : Int) : Int :=
  match lookupA args k with
  | some (.i n) => n
  | _ => d

/-- `arguments.get(key, d)` for a string-schema argument. -/
def strArg (args : Args) (k : String) (d : String) : String :=
  match lookupA args k with
  | some v => v.text
  | none => d

/-- `arguments.get("expand")`: `None` when absent. -/
def expandArg (args : Args) : Option (List String) :=
  match lookupA args "expand" with
  | some (.arr l) => some l
  | _ => none

/-- One entry of a tool schema `properties`: its name, whether the
schema lists it under `required`, and its declared `default` if any. -/
structure ArgDecl where
  name : String
  required : Bool
  default : Option JVal
deriving DecidableEq, Repr

/-- One tool descriptor of the catalog (descriptions and enum lists,
which no claim touches, are omitted). -/
structure ToolDecl where
  name : String
  args : List ArgDecl
deriving DecidableEq, Repr

/-- Lines 218-412, `list_tools`: the static tool catalog with the
schema-declared required flags and defaults. -/
def toolCatalog : List ToolDecl :=
  [ { name := "list_publications", args := [] },
    { name := "get_publication_details",
      args := [⟨"publication_id", true, none⟩] },
    { name := "list_posts",
      args := [⟨"publication_id", true, none⟩,
               ⟨"limit", false, some (.i 10)⟩,
               ⟨"page", false, some (.i 1)⟩,
               ⟨"status", false, some (.s "all")⟩,
               ⟨"audience", false, some (.s "all")⟩,
               ⟨"platform", false, some (.s "all")⟩,
               ⟨"order_by", false, some (.s "publish_date")⟩,
               ⟨"direction", false, some (.s "desc")⟩,
               ⟨"expand", false, none⟩] },
    { name := "get_post_details",
      args := [⟨"publication_id", true, none⟩,
               ⟨"post_id", true, none⟩,
               ⟨"expand", false, none⟩] },
    { name := "get_posts_summary_stats",
      args := [⟨"publication_id", true, none⟩,
               ⟨"status", false, some (.s "confirmed")⟩,
               ⟨"audience", false, some (.s "all")⟩,
               ⟨"platform", false, some (.s "all")⟩] },
    { name := "list_segments",
      args := [⟨"publication_id", true, none⟩] },
    { name := "get_segment_details",
      args := [⟨"publication_id", true, none⟩,
               ⟨"segment_id", true, none⟩] } ]

/-- The names of the advertised tools. -/
def toolNames : List String := toolCatalog.map (fun t => t.name)

/-- The default the catalog schema declares for an argument of a tool. -/
def schemaDefault (tool arg : String) : Option JVal :=
  match toolCatalog.find? (fun t => t.name = tool) with
  | some t =>
      match t.args.find? (fun a => a.name = arg) with
      | some a => a.default
      | none => none
  | none => none

/-- One `TextContent` item (its `type` field is the constant `"text"` and
is not modeled). -/
structure TextContent where
  text : String
deriving DecidableEq, Repr

/-- The protocol result of a tool call. -/
structure CallToolResult where
  content : List TextContent
deriving DecidableEq, Repr

/-- Build the single-text-content result the handlers return. -/
def mkText (t : String) : CallToolResult :=
  { content := [{ text := t }] }

/-- The first text payload of a result. -/
def firstText (r : CallToolResult) : String :=
  match r.content with
  | c :: _ => c.text
  | [] => ""

/-- Stand-in for `json.dumps(..., indent=2)` on a post list; no claim
inspects success payloads, so any concrete rendering serves. -/
def dumpPosts (l : List (Post String)) : String :=
  String.intercalate ";" (l.map (fun p =>
    toString p.pid ++ "," ++ (p.created).getD "null" ++ "," ++
      (p.publish_date).getD "null" ++ "," ++ (p.displayed_date).getD "null"))

/-- Stand-in for `json.dumps(..., indent=2)` on a whole envelope. -/
def dumpResponse (r : Response String) : String :=
  dumpPosts (r.data.getD []) ++ "|" ++
    String.intercalate ";" (r.rest.map (fun kv => kv.1 ++ "=" ++ kv.2))

/-- The `list_publications` branch of `call_tool` (lines 421-427). -/
def handle_list_publications (w : World) (_args : Args) : Except String CallToolResult :=
  match BeehiivAPI.get_publications w with
  | .error e => .error e
  | .ok pubs => .ok (mkText (dumpPosts pubs))

/-- The `get_publication_details` branch (lines 429-434). -/
def handle_get_publication_details (w : World) (args : Args) : Except String CallToolResult :=
  match requireStr args "publication_id" with
  | .error e => .error e
  | .ok pub =>
    match BeehiivAPI.get_publication_details w pub with
    | .error e => .error e
    | .ok d => .ok (mkText (dumpPosts d))

/-- The `list_posts` branch (lines 436-460): required `publication_id`,
the optional arguments defaulted by the dispatcher, then the client call. -/
def handle_list_posts (w : World) (args : Args) : Except String CallToolResult :=
  match requireStr args "publication_id" with
  | .error e => .error e
  | .ok pub =>
    match BeehiivAPI.list_posts w pub (intArg args "limit" 10) (intArg args "page" 1)
        (strArg args "status" "all") (strArg args "audience" "all")
        (strArg args "platform" "all") (strArg args "order_by" "publish_date")
        (strArg args "direction" "desc") (expandArg args) with
    | .error e => .error e
    | .ok r => .ok (mkText (dumpResponse r))

/-- The `get_post_details` branch (lines 462-470). -/
def handle_get_post_details (w : World) (args : Args) : Except String CallToolResult :=
  match requireStr args "publication_id" with
  | .error e => .error e
  | .ok pub =>
    match requireStr args "post_id" with
    | .error e => .error e
    | .ok post_id =>
      match BeehiivAPI.get_post_details w pub post_id (expandArg args) with
      | .error e => .error e
      | .ok d => .ok (mkText (dumpPosts d))

/-- The `get_posts_summary_stats` branch (lines 472-486). -/
def handle_get_posts_summary_stats (w : World) (args : Args) : Except String CallToolResult :=
  match requireStr args "publication_id" with
  | .error e => .error e
  | .ok pub =>
    match BeehiivAPI.get_posts_aggregate_stats w pub (strArg args "status" "confirmed")
        (strArg args "audience" "all") (strArg args "platform" "all") with
    | .error e => .error e
    | .ok d => .ok (mkText (dumpPosts d))

/-- The `list_segments` branch (lines 488-493). -/
def handle_list_segments (w : World) (args : Args) : Except String CallToolResult :=
  match requireStr args "publication_id" with
  | .error e => .error e
  | .ok pub =>
    match BeehiivAPI.list_segments w pub with
    | .error e => .error e
    | .ok d => .ok (mkText (dumpPosts d))

/-- The `get_segment_details` branch (lines 495-501). -/
def handle_get_segment_details (w : World) (args : Args) : Except String CallToolResult :=
  match requireStr args "publication_id" with
  | .error e => .error e
  | .ok pub =>
    match requireStr args "segment_id" with
    | .error e => .error e
    | .ok seg =>
      match BeehiivAPI.get_segment_details w pub seg with
      | .error e => .error e
      | .ok d => .ok (mkText (dumpPosts d))

/-- The body of the `try:` block of `call_tool` (lines 418-504):
initialize the client, then dispatch on the tool name; an unregistered
name raises `ValueError("Unknown tool: " + name)`. -/
def call_tool_try (w : World) (name : String) (args : Args) : Except String CallToolResult :=
  match get_api_client w with
  | .error e => .error e
  | .ok _ =>
    if name = "list_publications" then handle_list_publications w args
    else if name = "get_publication_details" then handle_get_publication_details w args
    else if name = "list_posts" then handle_list_posts w args
    else if name = "get_post_details" then handle_get_post_details w args
    else if name = "get_posts_summary_stats" then handle_get_posts_summary_stats w args
    else if name = "list_segments" then handle_list_segments w args
    else if name = "get_segment_details" then handle_get_segment_details w args
    else .error ("Unknown tool: " ++ name)

/-- Lines 415-509, `call_tool`: every exception escaping the dispatch body
is caught and converted into a successful result whose payload is
`"Error: " + str(e)`. -/
def call_tool (w : World) (name : String) (args : Args) : CallToolResult :=
  match call_tool_try w name args with
  | .ok r => r
  | .error e => mkText ("Error: " ++ e)

/-! ## Concrete instances used by the witnesses -/

/-- A post with no `publish_date` (the spec scenario's `id: 1`). -/
def pA : Post Nat := { pid := 1, created := none, publish_date := none, displayed_date := none }

/-- A post with the earlier `publish_date` (the scenario's `id: 2`). -/
def pB : Post Nat := { pid := 2, created := none, publish_date := some 1, displayed_date := none }

/-- A post with the later `publish_date` (the scenario's `id: 3`). -/
def pC : Post Nat := { pid := 3, created := none, publish_date := some 3, displayed_date := none }

/-- A concrete response envelope with extra keys besides `data`. -/
def rN : Response Nat :=
  { data := some [pA, pB, pC], rest := [("page", "1"), ("total_results", "3")] }

/-- A world with the API key set and every endpoint timing out. -/
def w0 : World :=
  { apiKey := some "key"
    pubsResp := .timeout
    pubDetailResp := fun _ => .timeout
    postsResp := fun _ _ => .timeout
    postDetailResp := fun _ _ _ => .timeout
    aggResp := fun _ _ => .timeout
    segsResp := fun _ => .timeout
    segDetailResp := fun _ _ => .timeout }

/-- A world whose posts endpoint always answers HTTP 401. -/
def w401 : World := { w0 with postsResp := fun _ _ => .httpError 401 }

/-! ## Theorems -/

theorem optLE_trans (a b c : Option K) (hab : optLE a b = true) (hbc : optLE b c = true) :
    optLE a c = true := by
  cases a <;> cases b <;> cases c <;> simp_all [optLE]
  exact le_trans hab hbc

theorem optLE_total (a b : Option K) : optLE a b || optLE b a := by
  cases a <;> cases b <;> simp [optLE, le_total]

theorem postLE_trans (f : String) (rev : Bool) (a b c : Post K)
    (hab : postLE f rev a b = true) (hbc : postLE f rev b c = true) :
    postLE f rev a c = true := by
  cases rev <;> simp only [postLE, if_true, if_false, Bool.false_eq_true] at *
  · exact optLE_trans _ _ _ hab hbc
  · exact optLE_trans _ _ _ hbc hab

theorem postLE_total (f : String) (rev : Bool) (a b : Post K) :
    postLE f rev a b || postLE f rev b a := by
  cases rev <;> simp only [postLE, if_true, if_false, Bool.false_eq_true]
  · exact optLE_total _ _
  · rw [Bool.or_comm]; exact optLE_total _ _

/-- The two branches of `sortPosts`, with the partition and sort spelled out. -/
theorem sortPosts_eq (posts : List (Post K)) (f dir : String) :
    sortPosts posts f dir =
      if dir == "desc" then
        (posts.filter (fun p => (p.getDate f).isSome)).mergeSort (postLE f true) ++
          posts.filter (fun p => (p.getDate f).isNone)
      else
        posts.filter (fun p => (p.getDate f).isNone) ++
          (posts.filter (fun p => (p.getDate f).isSome)).mergeSort (postLE f false) := by
  cases h : (dir == "desc") <;> simp [sortPosts, h]

/-- Stability of the embedded sort: restricting the sorted list to the posts
whose sort key equals any fixed value gives exactly the input restricted to
that value, in input order. -/
theorem mergeSort_filter_key (l : List (Post K)) (f : String) (rev : Bool) (k : K) :
    (l.mergeSort (postLE f rev)).filter (fun p => decide (p.getDate f = some k)) =
      l.filter (fun p => decide (p.getDate f = some k)) := by
  have hA : (l.filter (fun p => decide (p.getDate f = some k))).Pairwise
      (fun a b => postLE f rev a b = true) := by
    apply List.pairwise_of_forall_mem_list
    intro a ha b hb
    have ha' := (List.mem_filter.mp ha).2
    have hb' := (List.mem_filter.mp hb).2
    simp only [decide_eq_true_eq] at ha' hb'
    cases rev <;> simp [postLE, ha', hb', optLE]
  have hsub : List.Sublist (l.filter (fun p => decide (p.getDate f = some k)))
      (l.mergeSort (postLE f rev)) :=
    List.sublist_mergeSort (postLE_trans f rev) (postLE_total f rev) hA (List.filter_sublist l)
  have hAq : (l.filter (fun p => decide (p.getDate f = some k))).filter
      (fun p => decide (p.getDate f = some k)) =
      l.filter (fun p => decide (p.getDate f = some k)) :=
    List.filter_eq_self.mpr (fun a ha => (List.mem_filter.mp ha).2)
  have hsub2 : List.Sublist (l.filter (fun p => decide (p.getDate f = some k)))
      ((l.mergeSort (postLE f rev)).filter (fun p => decide (p.getDate f = some k))) := by
    have h2 := hsub.filter (fun p => decide (p.getDate f = some k))
    rwa [hAq] at h2
  have hperm : List.Perm
      ((l.mergeSort (postLE f rev)).filter (fun p => decide (p.getDate f = some k)))
      (l.filter (fun p => decide (p.getDate f = some k))) :=
    (List.mergeSort_perm l (postLE f rev)).filter _
  exact (hsub2.eq_of_length hperm.length_eq.symm).symm

omit [LinearOrder K] in
theorem isSome_ne_isNone {o : Option K} (h : o.isSome = true) : o.isNone = false := by
  cases o <;> simp_all

/-- C1: for every page normalized by `list_posts` with a recognized date
`order_by`: with direction `desc` the output splits into the posts
possessing the field, pairwise non-increasing by the field's raw value,
followed by all posts lacking it; with direction `asc` it splits into the
posts lacking the field followed by the possessing posts, pairwise
non-decreasing by raw value. -/
theorem list_posts_page_ordered (posts : List (Post K)) (f dir : String)
    (hf : f ∈ recognizedDateFields) :
    (dir = "desc" →
      ∃ l₁ l₂, normalizePosts posts f dir = l₁ ++ l₂ ∧
        (∀ p ∈ l₁, (p.getDate f).isSome = true) ∧
        (∀ p ∈ l₂, (p.getDate f).isNone = true) ∧
        l₁.Pairwise (fun a b => ∀ x y, a.getDate f = some x → b.getDate f = some y → y ≤ x)) ∧
    (dir = "asc" →
      ∃ l₁ l₂, normalizePosts posts f dir = l₁ ++ l₂ ∧
        (∀ p ∈ l₁, (p.getDate f).isNone = true) ∧
        (∀ p ∈ l₂, (p.getDate f).isSome = true) ∧
        l₂.Pairwise (fun a b => ∀ x y, a.getDate f = some x → b.getDate f = some y → x ≤ y)) := by
  constructor
  · rintro rfl
    rcases eq_or_ne posts [] with hp | hp
    · exact ⟨[], [], by simp [hp, normalizePosts], by simp, by simp, by simp⟩
    refine ⟨(posts.filter (fun p => (p.getDate f).isSome)).mergeSort (postLE f true),
      posts.filter (fun p => (p.getDate f).isNone), ?_, ?_, ?_, ?_⟩
    · unfold normalizePosts
      rw [if_pos ⟨hp, hf⟩, sortPosts_eq]
      simp
    · intro p hm
      exact (List.mem_filter.mp (List.mem_mergeSort.mp hm)).2
    · intro p hm
      exact (List.mem_filter.mp hm).2
    · have hs := List.sorted_mergeSort (postLE_trans f true) (postLE_total f true)
        (posts.filter (fun p => (p.getDate f).isSome))
      refine hs.imp fun {a b} hab => ?_
      intro x y hax hby
      have hopt : optLE (b.getDate f) (a.getDate f) = true := by simpa [postLE] using hab
      rw [hax, hby] at hopt
      simpa [optLE] using hopt
  · rintro rfl
    rcases eq_or_ne posts [] with hp | hp
    · exact ⟨[], [], by simp [hp, normalizePosts], by simp, by simp, by simp⟩
    refine ⟨posts.filter (fun p => (p.getDate f).isNone),
      (posts.filter (fun p => (p.getDate f).isSome)).mergeSort (postLE f false),
      ?_, ?_, ?_, ?_⟩
    · unfold normalizePosts
      rw [if_pos ⟨hp, hf⟩, sortPosts_eq]
      simp
    · intro p hm
      exact (List.mem_filter.mp hm).2
    · intro p hm
      exact (List.mem_filter.mp (List.mem_mergeSort.mp hm)).2
    · have hs := List.sorted_mergeSort (postLE_trans f false) (postLE_total f false)
        (posts.filter (fun p => (p.getDate f).isSome))
      refine hs.imp fun {a b} hab => ?_
      intro x y hax hby
      have hopt : optLE (a.getDate f) (b.getDate f) = true := by simpa [postLE] using hab
      rw [hax, hby] at hopt
      simpa [optLE] using hopt

/-- C2: the normalization is stable.  The posts lacking the sort field
keep their relative input order (the output restricted to them equals the
input restricted to them), and for every key value `k` the posts whose
sort field equals `k` keep their relative input order, whatever the
direction. -/
theorem list_posts_sort_stable (posts : List (Post K)) (f dir : String)
    (hf : f ∈ recognizedDateFields) :
    (normalizePosts posts f dir).filter (fun p => (p.getDate f).isNone) =
      posts.filter (fun p => (p.getDate f).isNone) ∧
    (∀ k : K, (normalizePosts posts f dir).filter (fun p => decide (p.getDate f = some k)) =
      posts.filter (fun p => decide (p.getDate f = some k))) := by
  rcases eq_or_ne posts [] with hp | hp
  · simp [hp, normalizePosts]
  unfold normalizePosts
  rw [if_pos ⟨hp, hf⟩, sortPosts_eq]
  have hM0 : ∀ rev : Bool,
      ((posts.filter (fun p => (p.getDate f).isSome)).mergeSort (postLE f rev)).filter
        (fun p => (p.getDate f).isNone) = [] := by
    intro rev
    rw [List.filter_eq_nil_iff]
    intro a ha
    have hS := (List.mem_filter.mp (List.mem_mergeSort.mp ha)).2
    simp [isSome_ne_isNone hS]
  have hW : (posts.filter (fun p => (p.getDate f).isNone)).filter
      (fun p => (p.getDate f).isNone) = posts.filter (fun p => (p.getDate f).isNone) :=
    List.filter_eq_self.mpr (fun a ha => (List.mem_filter.mp ha).2)
  have hWk : ∀ k : K, (posts.filter (fun p => (p.getDate f).isNone)).filter
      (fun p => decide (p.getDate f = some k)) = [] := by
    intro k
    rw [List.filter_eq_nil_iff]
    intro a ha
    have hN := (List.mem_filter.mp ha).2
    cases h : a.getDate f <;> simp_all
  have hMk : ∀ (rev : Bool) (k : K),
      ((posts.filter (fun p => (p.getDate f).isSome)).mergeSort (postLE f rev)).filter
        (fun p => decide (p.getDate f = some k)) =
      posts.filter (fun p => decide (p.getDate f = some k)) := by
    intro rev k
    rw [mergeSort_filter_key, List.filter_filter]
    refine List.filter_congr fun a _ => ?_
    cases h : a.getDate f <;> simp [h]
  cases hrev : (dir == "desc") <;> simp only [hrev, if_true, if_false, Bool.false_eq_true,
    List.filter_append]
  · exact ⟨by rw [hM0, hW, List.append_nil], fun k => by rw [hWk, hMk, List.nil_append]⟩
  · exact ⟨by rw [hM0, hW, List.nil_append], fun k => by rw [hWk, hMk, List.append_nil]⟩

/-- C6: normalization is idempotent.  A page that already has the required
shape — under `desc` the field-possessing posts (pairwise ordered by the
sort comparison) followed by the field-lacking ones, under any other
direction (the code treats everything but `"desc"` as ascending) the
field-lacking posts followed by the ordered possessing ones — is returned
unchanged; in particular any output of the normalization is a fixpoint. -/
theorem normalize_sorted_fixpoint (posts l₁ l₂ : List (Post K)) (f dir : String)
    (hf : f ∈ recognizedDateFields)
    (hsplit : posts = if dir == "desc" then l₁ ++ l₂ else l₂ ++ l₁)
    (h₁ : ∀ p ∈ l₁, (p.getDate f).isSome = true)
    (h₂ : ∀ p ∈ l₂, (p.getDate f).isNone = true)
    (hsorted : l₁.Pairwise (fun a b => postLE f (dir == "desc") a b = true)) :
    normalizePosts posts f dir = posts := by
  rcases eq_or_ne posts [] with hp | hp
  · simp [hp, normalizePosts]
  unfold normalizePosts
  rw [if_pos ⟨hp, hf⟩, sortPosts_eq]
  have hl₁S : l₁.filter (fun p => (p.getDate f).isSome) = l₁ :=
    List.filter_eq_self.mpr h₁
  have hl₁N : l₁.filter (fun p => (p.getDate f).isNone) = [] := by
    rw [List.filter_eq_nil_iff]
    intro a ha
    simp [isSome_ne_isNone (h₁ a ha)]
  have hl₂S : l₂.filter (fun p => (p.getDate f).isSome) = [] := by
    rw [List.filter_eq_nil_iff]
    intro a ha
    have := h₂ a ha
    cases h : a.getDate f <;> simp_all
  have hl₂N : l₂.filter (fun p => (p.getDate f).isNone) = l₂ :=
    List.filter_eq_self.mpr h₂
  cases hrev : (dir == "desc") <;>
    rw [hrev] at hsplit hsorted <;> simp only [if_true, if_false, Bool.false_eq_true] at hsplit <;>
    subst hsplit <;>
    simp only [if_true, if_false, Bool.false_eq_true, List.filter_append, hl₁S, hl₁N, hl₂S, hl₂N,
      List.append_nil, List.nil_append]
  · rw [List.mergeSort_of_sorted hsorted]
  · rw [List.mergeSort_of_sorted hsorted]

/-- C7: for an `order_by` value outside the recognized set the page and
the whole response envelope are returned exactly as received, with no
reordering. -/
theorem list_posts_unrecognized_passthrough (posts : List (Post K)) (r : Response K)
    (f dir : String) (hf : f ∉ recognizedDateFields) :
    normalizePosts posts f dir = posts ∧ normalizeResponse r f dir = r := by
  constructor
  · simp [normalizePosts, hf]
  · simp [normalizeResponse, hf]

/-- C9: the client-side re-sort returns a permutation of the page it
receives — no post is dropped, duplicated, or modified, for every
`order_by` and `direction`. -/
theorem normalize_perm (posts : List (Post K)) (f dir : String) :
    List.Perm (normalizePosts posts f dir) posts := by
  unfold normalizePosts
  split
  · rw [sortPosts_eq]
    have hN : posts.filter (fun p => (p.getDate f).isNone) =
        posts.filter (fun p => !(p.getDate f).isSome) :=
      List.filter_congr (fun a _ => by cases a.getDate f <;> simp)
    have base : List.Perm
        ((posts.filter (fun p => (p.getDate f).isSome)).mergeSort (postLE f (dir == "desc")) ++
          posts.filter (fun p => (p.getDate f).isNone)) posts := by
      rw [hN]
      exact ((List.mergeSort_perm _ _).append (List.Perm.refl _)).trans
        (List.filter_append_perm _ posts)
    cases hrev : (dir == "desc") <;>
      simp only [if_true, if_false, Bool.false_eq_true]
    · exact List.perm_append_comm.trans (by simpa [hrev] using base)
    · simpa [hrev] using base
  · exact List.Perm.refl _

/-- C10: `list_posts` leaves every key of the response envelope other than
`data` unchanged; the `data` value is replaced by the normalized post
list, and an absent or empty `data` leaves the whole envelope untouched. -/
theorem list_posts_envelope_frame (r : Response K) (f dir : String) :
    (normalizeResponse r f dir).rest = r.rest ∧
    ((r.data = none ∨ r.data = some []) → normalizeResponse r f dir = r) ∧
    (∀ posts, r.data = some posts →
      (normalizeResponse r f dir).data = some (normalizePosts posts f dir)) := by
  refine ⟨?_, ?_, ?_⟩
  · simp only [normalizeResponse]
    split <;> rfl
  · rintro (h | h) <;> simp [normalizeResponse, h]
  · intro posts hdata
    by_cases hc : posts ≠ [] ∧ f ∈ recognizedDateFields
    · simp only [normalizeResponse, hdata, Option.getD_some, if_pos hc]
      simp [normalizePosts, if_pos hc]
    · simp only [normalizeResponse, hdata, Option.getD_some, if_neg hc]
      simp [normalizePosts, if_neg hc, hdata]

theorem lookupA_cons_ne (k : String) (v : JVal) (args : Args) (key : String)
    (h : ¬ key = k) : lookupA ((k, v) :: args) key = lookupA args key := by
  simp [lookupA, h]

theorem lookupA_cons_self (k : String) (v : JVal) (args : Args) :
    lookupA ((k, v) :: args) k = some v := by
  simp [lookupA]

theorem requireStr_cons_ne (k : String) (v : JVal) (args : Args) (key : String)
    (h : ¬ key = k) : requireStr ((k, v) :: args) key = requireStr args key := by
  simp [requireStr, lookupA_cons_ne k v args key h]

theorem intArg_cons_ne (k : String) (v : JVal) (args : Args) (key : String) (d : Int)
    (h : ¬ key = k) : intArg ((k, v) :: args) key d = intArg args key d := by
  simp [intArg, lookupA_cons_ne k v args key h]

theorem intArg_cons_self (k : String) (n : Int) (args : Args) (d : Int) :
    intArg ((k, JVal.i n) :: args) k d = n := by
  simp [intArg, lookupA_cons_self]

theorem intArg_none (args : Args) (k : String) (d : Int)
    (h : lookupA args k = none) : intArg args k d = d := by
  simp [intArg, h]

theorem strArg_cons_ne (k : String) (v : JVal) (args : Args) (key : String) (d : String)
    (h : ¬ key = k) : strArg ((k, v) :: args) key d = strArg args key d := by
  simp [strArg, lookupA_cons_ne k v args key h]

theorem strArg_cons_self (k : String) (str : String) (args : Args) (d : String) :
    strArg ((k, JVal.s str) :: args) k d = str := by
  simp [strArg, lookupA_cons_self, JVal.text]

theorem strArg_none (args : Args) (k : String) (d : String)
    (h : lookupA args k = none) : strArg args k d = d := by
  simp [strArg, h]

theorem expandArg_cons_ne (k : String) (v : JVal) (args : Args)
    (h : ¬ "expand" = k) : expandArg ((k, v) :: args) = expandArg args := by
  simp [expandArg, lookupA_cons_ne k v args "expand" h]

theorem handle_list_posts_congr (w : World) (a b : Args)
    (h1 : requireStr a "publication_id" = requireStr b "publication_id")
    (h2 : intArg a "limit" 10 = intArg b "limit" 10)
    (h3 : intArg a "page" 1 = intArg b "page" 1)
    (h4 : strArg a "status" "all" = strArg b "status" "all")
    (h5 : strArg a "audience" "all" = strArg b "audience" "all")
    (h6 : strArg a "platform" "all" = strArg b "platform" "all")
    (h7 : strArg a "order_by" "publish_date" = strArg b "order_by" "publish_date")
    (h8 : strArg a "direction" "desc" = strArg b "direction" "desc")
    (h9 : expandArg a = expandArg b) :
    handle_list_posts w a = handle_list_posts w b := by
  simp only [handle_list_posts, h1, h2, h3, h4, h5, h6, h7, h8, h9]

theorem handle_summary_congr (w : World) (a b : Args)
    (h1 : requireStr a "publication_id" = requireStr b "publication_id")
    (h2 : strArg a "status" "confirmed" = strArg b "status" "confirmed")
    (h3 : strArg a "audience" "all" = strArg b "audience" "all")
    (h4 : strArg a "platform" "all" = strArg b "platform" "all") :
    handle_get_posts_summary_stats w a = handle_get_posts_summary_stats w b := by
  simp only [handle_get_posts_summary_stats, h1, h2, h3, h4]

theorem call_tool_try_list_posts (w : World) (args : Args) :
    call_tool_try w "list_posts" args =
      match get_api_client w with
      | .error e => .error e
      | .ok _ => handle_list_posts w args := rfl

theorem call_tool_try_summary (w : World) (args : Args) :
    call_tool_try w "get_posts_summary_stats" args =
      match get_api_client w with
      | .error e => .error e
      | .ok _ => handle_get_posts_summary_stats w args := rfl

theorem call_tool_congr_list_posts (w : World) (a b : Args)
    (h : handle_list_posts w a = handle_list_posts w b) :
    call_tool w "list_posts" a = call_tool w "list_posts" b := by
  simp only [call_tool, call_tool_try_list_posts, h]

theorem call_tool_congr_summary (w : World) (a b : Args)
    (h : handle_get_posts_summary_stats w a = handle_get_posts_summary_stats w b) :
    call_tool w "get_posts_summary_stats" a = call_tool w "get_posts_summary_stats" b := by
  simp only [call_tool, call_tool_try_summary, h]

/-- C3 (counterexample): at `limit = 0` the params sent upstream carry
`limit = 0`; the value is neither rejected nor clamped to the schema's
lower bound of 1 (`buildPostsParams` is total and only applies
`min(limit, 100)`). -/
theorem limit_below_one_not_clamped :
    (buildPostsParams 0 1 "all" "all" "all" "publish_date" "desc" none).limit = 0 ∧
    ¬ 1 ≤ (buildPostsParams 0 1 "all" "all" "all" "publish_date" "desc" none).limit := by
  norm_num [buildPostsParams]

/-- C3 (amended): `limit` values above 100 are clamped to 100 before
being sent upstream; values of at most 100 — including values below 1 —
are sent upstream unchanged (the code performs no lower-bound rejection
or clamping; the schema's `minimum: 1` is advisory only). -/
theorem limit_clamped_above_only (limit page : Int)
    (status audience platform order_by direction : String) (expand : Option (List String)) :
    (buildPostsParams limit page status audience platform order_by direction expand).limit =
      min limit 100 ∧
    (100 ≤ limit →
      (buildPostsParams limit page status audience platform order_by direction expand).limit =
        100) ∧
    (limit ≤ 100 →
      (buildPostsParams limit page status audience platform order_by direction expand).limit =
        limit) := by
  refine ⟨rfl, fun h => ?_, fun h => ?_⟩
  · exact min_eq_right h
  · exact min_eq_left h

/-- C4: `call_tool` never propagates a failure: a successful dispatch body
is returned as-is, and every failing dispatch body (unknown tool, missing
required argument, any domain/transport error) is converted into a
successful result whose payload is `"Error: " ++ str(e)`.  For an
unregistered tool name (with the client initialisable, i.e. the API key
present) the payload is exactly `"Error: Unknown tool: " ++ name`, which
starts with `Error: ` and contains `Unknown tool`. -/
theorem call_tool_converts_failures (w : World) (name : String) (args : Args) :
    ((∃ r, call_tool_try w name args = .ok r ∧ call_tool w name args = r) ∨
      (∃ e, call_tool_try w name args = .error e ∧
        call_tool w name args = mkText ("Error: " ++ e))) ∧
    (w.apiKey.isSome = true → name ∉ toolNames →
      call_tool w name args = mkText ("Error: " ++ ("Unknown tool: " ++ name))) := by
  constructor
  · cases h : call_tool_try w name args with
    | ok r => exact Or.inl ⟨r, rfl, by simp [call_tool, h]⟩
    | error e => exact Or.inr ⟨e, rfl, by simp [call_tool, h]⟩
  · intro hk hname
    obtain ⟨key, hkey⟩ := Option.isSome_iff_exists.mp hk
    simp [toolNames, toolCatalog] at hname
    obtain ⟨h1, h2, h3, h4, h5, h6, h7⟩ := hname
    simp [call_tool, call_tool_try, get_api_client, hkey, h1, h2, h3, h4, h5, h6, h7]

/-- C5: an upstream 401 makes `_make_request` fail with the
invalid-API-key message, and the enclosing `list_posts` tool call still
completes as a successful protocol result whose payload carries exactly
that message prefixed by the error marker. -/
theorem http401_invalid_api_key (w : World) (args : Args) (v : JVal)
    (hk : w.apiKey.isSome = true)
    (h401 : ∀ p q, w.postsResp p q = HttpResult.httpError 401)
    (hp : lookupA args "publication_id" = some v) :
    make_request (HttpResult.httpError 401 : HttpResult (Response String)) =
      Except.error "Invalid API key. Please check your BEEHIIV_API_KEY." ∧
    call_tool w "list_posts" args =
      mkText ("Error: " ++ "Invalid API key. Please check your BEEHIIV_API_KEY.") := by
  refine ⟨rfl, ?_⟩
  obtain ⟨key, hkey⟩ := Option.isSome_iff_exists.mp hk
  simp [call_tool, call_tool_try_list_posts, get_api_client, hkey, handle_list_posts,
    requireStr, hp, BeehiivAPI.list_posts, h401, make_request, Except.map]

/-- C8: for every optional argument carrying a schema default, the
dispatcher's fallback when the argument is missing coincides with the
declared default: calling the tool without the argument behaves exactly
like calling it with the argument explicitly set to the catalog's
default (shown for all ten defaulted arguments; `expand` declares no
default and the dispatcher likewise falls back to `None`). -/
theorem dispatcher_defaults_match_schema (w : World) (args : Args) :
    (schemaDefault "list_posts" "limit" = some (JVal.i 10) ∧
      (lookupA args "limit" = none →
        call_tool w "list_posts" args =
          call_tool w "list_posts" (("limit", JVal.i 10) :: args))) ∧
    (schemaDefault "list_posts" "page" = some (JVal.i 1) ∧
      (lookupA args "page" = none →
        call_tool w "list_posts" args =
          call_tool w "list_posts" (("page", JVal.i 1) :: args))) ∧
    (schemaDefault "list_posts" "status" = some (JVal.s "all") ∧
      (lookupA args "status" = none →
        call_tool w "list_posts" args =
          call_tool w "list_posts" (("status", JVal.s "all") :: args))) ∧
    (schemaDefault "list_posts" "audience" = some (JVal.s "all") ∧
      (lookupA args "audience" = none →
        call_tool w "list_posts" args =
          call_tool w "list_posts" (("audience", JVal.s "all") :: args))) ∧
    (schemaDefault "list_posts" "platform" = some (JVal.s "all") ∧
      (lookupA args "platform" = none →
        call_tool w "list_posts" args =
          call_tool w "list_posts" (("platform", JVal.s "all") :: args))) ∧
    (schemaDefault "list_posts" "order_by" = some (JVal.s "publish_date") ∧
      (lookupA args "order_by" = none →
        call_tool w "list_posts" args =
          call_tool w "list_posts" (("order_by", JVal.s "publish_date") :: args))) ∧
    (schemaDefault "list_posts" "direction" = some (JVal.s "desc") ∧
      (lookupA args "direction" = none →
        call_tool w "list_posts" args =
          call_tool w "list_posts" (("direction", JVal.s "desc") :: args))) ∧
    (schemaDefault "get_posts_summary_stats" "status" = some (JVal.s "confirmed") ∧
      (lookupA args "status" = none →
        call_tool w "get_posts_summary_stats" args =
          call_tool w "get_posts_summary_stats" (("status", JVal.s "confirmed") :: args))) ∧
    (schemaDefault "get_posts_summary_stats" "audience" = some (JVal.s "all") ∧
      (lookupA args "audience" = none →
        call_tool w "get_posts_summary_stats" args =
          call_tool w "get_posts_summary_stats" (("audience", JVal.s "all") :: args))) ∧
    (schemaDefault "get_posts_summary_stats" "platform" = some (JVal.s "all") ∧
      (lookupA args "platform" = none →
        call_tool w "get_posts_summary_stats" args =
          call_tool w "get_posts_summary_stats" (("platform", JVal.s "all") :: args))) := by
  refine ⟨⟨by decide, fun h => ?_⟩, ⟨by decide, fun h => ?_⟩, ⟨by decide, fun h => ?_⟩,
    ⟨by decide, fun h => ?_⟩, ⟨by decide, fun h => ?_⟩, ⟨by decide, fun h => ?_⟩,
    ⟨by decide, fun h => ?_⟩, ⟨by decide, fun h => ?_⟩, ⟨by decide, fun h => ?_⟩,
    ⟨by decide, fun h => ?_⟩⟩
  · exact call_tool_congr_list_posts w args (("limit", JVal.i 10) :: args)
      (handle_list_posts_congr w args (("limit", JVal.i 10) :: args)
        ((requireStr_cons_ne "limit" (JVal.i 10) args "publication_id" (by decide)).symm)
        ((intArg_none args "limit" 10 h).trans (intArg_cons_self "limit" 10 args 10).symm)
        ((intArg_cons_ne "limit" (JVal.i 10) args "page" 1 (by decide)).symm)
        ((strArg_cons_ne "limit" (JVal.i 10) args "status" "all" (by decide)).symm)
        ((strArg_cons_ne "limit" (JVal.i 10) args "audience" "all" (by decide)).symm)
        ((strArg_cons_ne "limit" (JVal.i 10) args "platform" "all" (by decide)).symm)
        ((strArg_cons_ne "limit" (JVal.i 10) args "order_by" "publish_date" (by decide)).symm)
        ((strArg_cons_ne "limit" (JVal.i 10) args "direction" "desc" (by decide)).symm)
        ((expandArg_cons_ne "limit" (JVal.i 10) args (by decide)).symm))
  · exact call_tool_congr_list_posts w args (("page", JVal.i 1) :: args)
      (handle_list_posts_congr w args (("page", JVal.i 1) :: args)
        ((requireStr_cons_ne "page" (JVal.i 1) args "publication_id" (by decide)).symm)
        ((intArg_cons_ne "page" (JVal.i 1) args "limit" 10 (by decide)).symm)
        ((intArg_none args "page" 1 h).trans (intArg_cons_self "page" 1 args 1).symm)
        ((strArg_cons_ne "page" (JVal.i 1) args "status" "all" (by decide)).symm)
        ((strArg_cons_ne "page" (JVal.i 1) args "audience" "all" (by decide)).symm)
        ((strArg_cons_ne "page" (JVal.i 1) args "platform" "all" (by decide)).symm)
        ((strArg_cons_ne "page" (JVal.i 1) args "order_by" "publish_date" (by decide)).symm)
        ((strArg_cons_ne "page" (JVal.i 1) args "direction" "desc" (by decide)).symm)
        ((expandArg_cons_ne "page" (JVal.i 1) args (by decide)).symm))
  · exact call_tool_congr_list_posts w args (("status", JVal.s "all") :: args)
      (handle_list_posts_congr w args (("status", JVal.s "all") :: args)
        ((requireStr_cons_ne "status" (JVal.s "all") args "publication_id" (by decide)).symm)
        ((intArg_cons_ne "status" (JVal.s "all") args "limit" 10 (by decide)).symm)
        ((intArg_cons_ne "status" (JVal.s "all") args "page" 1 (by decide)).symm)
        ((strArg_none args "status" "all" h).trans
          (strArg_cons_self "status" "all" args "all").symm)
        ((strArg_cons_ne "status" (JVal.s "all") args "audience" "all" (by decide)).symm)
        ((strArg_cons_ne "status" (JVal.s "all") args "platform" "all" (by decide)).symm)
        ((strArg_cons_ne "status" (JVal.s "all") args "order_by" "publish_date" (by decide)).symm)
        ((strArg_cons_ne "status" (JVal.s "all") args "direction" "desc" (by decide)).symm)
        ((expandArg_cons_ne "status" (JVal.s "all") args (by decide)).symm))
  · exact call_tool_congr_list_posts w args (("audience", JVal.s "all") :: args)
      (handle_list_posts_congr w args (("audience", JVal.s "all") :: args)
        ((requireStr_cons_ne "audience" (JVal.s "all") args "publication_id" (by decide)).symm)
        ((intArg_cons_ne "audience" (JVal.s "all") args "limit" 10 (by decide)).symm)
        ((intArg_cons_ne "audience" (JVal.s "all") args "page" 1 (by decide)).symm)
        ((strArg_cons_ne "audience" (JVal.s "all") args "status" "all" (by decide)).symm)
        ((strArg_none args "audience" "all" h).trans
          (strArg_cons_self "audience" "all" args "all").symm)
        ((strArg_cons_ne "audience" (JVal.s "all") args "platform" "all" (by decide)).symm)
        ((strArg_cons_ne "audience" (JVal.s "all") args "order_by" "publish_date"
          (by decide)).symm)
        ((strArg_cons_ne "audience" (JVal.s "all") args "direction" "desc" (by decide)).symm)
        ((expandArg_cons_ne "audience" (JVal.s "all") args (by decide)).symm))
  · exact call_tool_congr_list_posts w args (("platform", JVal.s "all") :: args)
      (handle_list_posts_congr w args (("platform", JVal.s "all") :: args)
        ((requireStr_cons_ne "platform" (JVal.s "all") args "publication_id" (by decide)).symm)
        ((intArg_cons_ne "platform" (JVal.s "all") args "limit" 10 (by decide)).symm)
        ((intArg_cons_ne "platform" (JVal.s "all") args "page" 1 (by decide)).symm)
        ((strArg_cons_ne "platform" (JVal.s "all") args "status" "all" (by decide)).symm)
        ((strArg_cons_ne "platform" (JVal.s "all") args "audience" "all" (by decide)).symm)
        ((strArg_none args "platform" "all" h).trans
          (strArg_cons_self "platform" "all" args "all").symm)
        ((strArg_cons_ne "platform" (JVal.s "all") args "order_by" "publish_date"
          (by decide)).symm)
        ((strArg_cons_ne "platform" (JVal.s "all") args "direction" "desc" (by decide)).symm)
        ((expandArg_cons_ne "platform" (JVal.s "all") args (by decide)).symm))
  · exact call_tool_congr_list_posts w args (("order_by", JVal.s "publish_date") :: args)
      (handle_list_posts_congr w args (("order_by", JVal.s "publish_date") :: args)
        ((requireStr_cons_ne "order_by" (JVal.s "publish_date") args "publication_id"
          (by decide)).symm)
        ((intArg_cons_ne "order_by" (JVal.s "publish_date") args "limit" 10 (by decide)).symm)
        ((intArg_cons_ne "order_by" (JVal.s "publish_date") args "page" 1 (by decide)).symm)
        ((strArg_cons_ne "order_by" (JVal.s "publish_date") args "status" "all"
          (by decide)).symm)
        ((strArg_cons_ne "order_by" (JVal.s "publish_date") args "audience" "all"
          (by decide)).symm)
        ((strArg_cons_ne "order_by" (JVal.s "publish_date") args "platform" "all"
          (by decide)).symm)
        ((strArg_none args "order_by" "publish_date" h).trans
          (strArg_cons_self "order_by" "publish_date" args "publish_date").symm)
        ((strArg_cons_ne "order_by" (JVal.s "publish_date") args "direction" "desc"
          (by decide)).symm)
        ((expandArg_cons_ne "order_by" (JVal.s "publish_date") args (by decide)).symm))
  · exact call_tool_congr_list_posts w args (("direction", JVal.s "desc") :: args)
      (handle_list_posts_congr w args (("direction", JVal.s "desc") :: args)
        ((requireStr_cons_ne "direction" (JVal.s "desc") args "publication_id"
          (by decide)).symm)
        ((intArg_cons_ne "direction" (JVal.s "desc") args "limit" 10 (by decide)).symm)
        ((intArg_cons_ne "direction" (JVal.s "desc") args "page" 1 (by decide)).symm)
        ((strArg_cons_ne "direction" (JVal.s "desc") args "status" "all" (by decide)).symm)
        ((strArg_cons_ne "direction" (JVal.s "desc") args "audience" "all" (by decide)).symm)
        ((strArg_cons_ne "direction" (JVal.s "desc") args "platform" "all" (by decide)).symm)
        ((strArg_cons_ne "direction" (JVal.s "desc") args "order_by" "publish_date"
          (by decide)).symm)
        ((strArg_none args "direction" "desc" h).trans
          (strArg_cons_self "direction" "desc" args "desc").symm)
        ((expandArg_cons_ne "direction" (JVal.s "desc") args (by decide)).symm))
  · exact call_tool_congr_summary w args (("status", JVal.s "confirmed") :: args)
      (handle_summary_congr w args (("status", JVal.s "confirmed") :: args)
        ((requireStr_cons_ne "status" (JVal.s "confirmed") args "publication_id"
          (by decide)).symm)
        ((strArg_none args "status" "confirmed" h).trans
          (strArg_cons_self "status" "confirmed" args "confirmed").symm)
        ((strArg_cons_ne "status" (JVal.s "confirmed") args "audience" "all"
          (by decide)).symm)
        ((strArg_cons_ne "status" (JVal.s "confirmed") args "platform" "all"
          (by decide)).symm))
  · exact call_tool_congr_summary w args (("audience", JVal.s "all") :: args)
      (handle_summary_congr w args (("audience", JVal.s "all") :: args)
        ((requireStr_cons_ne "audience" (JVal.s "all") args "publication_id"
          (by decide)).symm)
        ((strArg_cons_ne "audience" (JVal.s "all") args "status" "confirmed"
          (by decide)).symm)
        ((strArg_none args "audience" "all" h).trans
          (strArg_cons_self "audience" "all" args "all").symm)
        ((strArg_cons_ne "audience" (JVal.s "all") args "platform" "all" (by decide)).symm))
  · exact call_tool_congr_summary w args (("platform", JVal.s "all") :: args)
      (handle_summary_congr w args (("platform", JVal.s "all") :: args)
        ((requireStr_cons_ne "platform" (JVal.s "all") args "publication_id"
          (by decide)).symm)
        ((strArg_cons_ne "platform" (JVal.s "all") args "status" "confirmed"
          (by decide)).symm)
        ((strArg_cons_ne "platform" (JVal.s "all") args "audience" "all" (by decide)).symm)
        ((strArg_none args "platform" "all" h).trans
          (strArg_cons_self "platform" "all" args "all").symm))

/-- Witness for C1 at the spec's scenario page, direction `desc`. -/
theorem list_posts_page_ordered_witness :
    ∃ l₁ l₂, normalizePosts [pA, pB, pC] "publish_date" "desc" = l₁ ++ l₂ ∧
      (∀ p ∈ l₁, (p.getDate "publish_date").isSome = true) ∧
      (∀ p ∈ l₂, (p.getDate "publish_date").isNone = true) ∧
      l₁.Pairwise (fun a b => ∀ x y, a.getDate "publish_date" = some x →
        b.getDate "publish_date" = some y → y ≤ x) :=
  (list_posts_page_ordered [pA, pB, pC] "publish_date" "desc" (by decide)).1 rfl

/-- Witness for C2 at the scenario page, key value `1`. -/
theorem list_posts_sort_stable_witness :
    (normalizePosts [pA, pB, pC] "publish_date" "desc").filter
        (fun p => (p.getDate "publish_date").isNone) =
      [pA, pB, pC].filter (fun p => (p.getDate "publish_date").isNone) ∧
    (normalizePosts [pA, pB, pC] "publish_date" "desc").filter
        (fun p => decide (p.getDate "publish_date" = some 1)) =
      [pA, pB, pC].filter (fun p => decide (p.getDate "publish_date" = some 1)) :=
  ⟨(list_posts_sort_stable [pA, pB, pC] "publish_date" "desc" (by decide)).1,
   (list_posts_sort_stable [pA, pB, pC] "publish_date" "desc" (by decide)).2 1⟩

/-- Witness for C3 (amended) at `limit = -5`: the below-bound value is
sent upstream unchanged. -/
theorem limit_clamped_above_only_witness :
    (buildPostsParams (-5) 1 "all" "all" "all" "publish_date" "desc" none).limit = -5 :=
  (limit_clamped_above_only (-5) 1 "all" "all" "all" "publish_date" "desc" none).2.2
    (by norm_num)

/-- Witness for C4 at an unregistered tool name. -/
theorem call_tool_converts_failures_witness :
    call_tool w0 "bogus_tool" [] = mkText ("Error: " ++ ("Unknown tool: " ++ "bogus_tool")) :=
  (call_tool_converts_failures w0 "bogus_tool" []).2 rfl (by decide)

/-- Witness for C5 in the 401 world. -/
theorem http401_invalid_api_key_witness :
    make_request (HttpResult.httpError 401 : HttpResult (Response String)) =
      Except.error "Invalid API key. Please check your BEEHIIV_API_KEY." ∧
    call_tool w401 "list_posts" [("publication_id", JVal.s "pub_1")] =
      mkText ("Error: " ++ "Invalid API key. Please check your BEEHIIV_API_KEY.") :=
  http401_invalid_api_key w401 [("publication_id", JVal.s "pub_1")] (JVal.s "pub_1")
    rfl (fun _ _ => rfl) (by decide)

/-- Witness for C6 at an already-descending page. -/
theorem normalize_sorted_fixpoint_witness :
    normalizePosts [pC, pB, pA] "publish_date" "desc" = [pC, pB, pA] :=
  normalize_sorted_fixpoint [pC, pB, pA] [pC, pB] [pA] "publish_date" "desc"
    (by decide) (by decide) (by decide) (by decide) (by decide)

/-- Witness for C7 at the unrecognized sort field `title`. -/
theorem list_posts_unrecognized_passthrough_witness :
    normalizePosts [pA, pB, pC] "title" "desc" = [pA, pB, pC] ∧
    normalizeResponse rN "title" "desc" = rN :=
  list_posts_unrecognized_passthrough [pA, pB, pC] rN "title" "desc" (by decide)

/-- Witness for C8: omitting `limit` behaves like passing the schema
default 10. -/
theorem dispatcher_defaults_match_schema_witness :
    call_tool w0 "list_posts" [("publication_id", JVal.s "p")] =
      call_tool w0 "list_posts" (("limit", JVal.i 10) :: [("publication_id", JVal.s "p")]) :=
  (dispatcher_defaults_match_schema w0 [("publication_id", JVal.s "p")]).1.2 (by decide)

/-- Witness for C10 at the concrete envelope. -/
theorem list_posts_envelope_frame_witness :
    (normalizeResponse rN "publish_date" "desc").data =
      some (normalizePosts [pA, pB, pC] "publish_date" "desc") :=
  (list_posts_envelope_frame rN "publish_date" "desc").2.2 [pA, pB, pC] rfl

end Beehiiv
